import Mathlib

/-!
Verification development for the countries-react25k repository.

The development shallowly embeds the client-side country-lookup and
weather-fetch sequencing logic of the repository:

* the Redux `countriesSlice` (initial state, `setSelectedCountry`,
  `clearSelectedCountry`, and the `extraReducers` which register only a
  handler for `fetchCountries.fulfilled`);
* the `CountryPage` resolution `useEffect` (slug normalisation through
  `slug.replace("-", " ") (global)` followed by `decodeURIComponent`, then a
  case-insensitive `find` over common/official names, dispatching
  `setSelectedCountry` / `clearSelectedCountry`, with cleanup dispatching
  `clearSelectedCountry`);
* `fetchWeatherData` (loading flag, error message, snapshot update, with
  the `!response.ok` branch throwing `Error("Weather data not available")`
  and the catch block storing `err.message`);
* the weather `useEffect` guard `selectedCountry?.capital?.[0]`;
* `handleCountryClick` slug construction
  (`countryName.toLowerCase().replace(/\s+/g, "-")`).

JavaScript strings are modelled as Lean `String` (lists of Unicode scalar
values); `String.prototype.toLowerCase` is modelled on its ASCII range,
`decodeURIComponent` by strict percent-decoding of UTF-8 byte sequences
which fails (as the ECMAScript builtin throws `URIError`) on malformed
escapes.  The asynchronous view behaviour is modelled by a small-step
transition relation over a view state carrying the Redux store, the
component-level weather state and the multiset of in-flight
(uncancelled) weather requests.
-/

/-- Model of `String.prototype.toLowerCase` on one character (ASCII range:
the code points the repository's data and routes exercise). -/
def jsCharToLower (c : Char) : Char :=
  if 65 ≤ c.toNat ∧ c.toNat ≤ 90 then Char.ofNat (c.toNat + 32) else c

/-- Model of `String.prototype.toLowerCase`. -/
def jsToLower (s : String) : String :=
  ⟨s.data.map jsCharToLower⟩

/-- ECMAScript WhiteSpace / LineTerminator code points, as matched by the
regular-expression class `\s`. -/
def jsWsCodes : List Nat :=
  [9, 10, 11, 12, 13, 32, 160, 5760, 8192, 8193, 8194, 8195, 8196, 8197,
   8198, 8199, 8200, 8201, 8202, 8232, 8233, 8239, 8287, 12288, 65279]

/-- Whether a character is matched by the JavaScript regex class `\s`. -/
def isJsWs (c : Char) : Bool :=
  decide (c.toNat ∈ jsWsCodes)

/-- Hexadecimal digit value, accepting both cases as `decodeURIComponent`
does. -/
def hexDigit? (c : Char) : Option Nat :=
  if 48 ≤ c.toNat ∧ c.toNat ≤ 57 then some (c.toNat - 48)
  else if 97 ≤ c.toNat ∧ c.toNat ≤ 102 then some (c.toNat - 87)
  else if 65 ≤ c.toNat ∧ c.toNat ≤ 70 then some (c.toNat - 55)
  else none

/-- Token stream produced by scanning percent-escapes: either a literal
character or one escaped byte. -/
inductive UriTok where
  | raw (c : Char)
  | byte (b : Nat)
deriving DecidableEq, Repr

/-- First pass of `decodeURIComponent`: each `%XY` becomes a byte token,
every other character a raw token; a `%` not followed by two hexadecimal
digits is a `URIError` (modelled as `Except.error`). -/
def uriTokens : List Char → Except String (List UriTok)
  | [] => .ok []
  | c :: rest =>
    if c = '%' then
      match rest with
      | c1 :: c2 :: r =>
        match hexDigit? c1, hexDigit? c2 with
        | some h1, some h2 => (uriTokens r).map (UriTok.byte (16 * h1 + h2) :: ·)
        | _, _ => .error "URIError: malformed URI sequence"
      | _ => .error "URIError: malformed URI sequence"
    else
      (uriTokens rest).map (UriTok.raw c :: ·)

/-- Second pass of `decodeURIComponent`: escaped bytes must form valid
(shortest-form, non-surrogate, in-range) UTF-8 sequences, exactly the
cases in which the ECMAScript builtin does not throw. -/
def uriUntokenize : List UriTok → Except String (List Char)
  | [] => .ok []
  | UriTok.raw c :: rest => (uriUntokenize rest).map (c :: ·)
  | UriTok.byte b :: rest =>
    if b < 0x80 then (uriUntokenize rest).map (Char.ofNat b :: ·)
    else if b < 0xC2 then .error "URIError: malformed URI sequence"
    else if b < 0xE0 then
      match rest with
      | UriTok.byte b2 :: r2 =>
        if 0x80 ≤ b2 ∧ b2 < 0xC0 then
          (uriUntokenize r2).map (Char.ofNat ((b - 0xC0) * 0x40 + (b2 - 0x80)) :: ·)
        else .error "URIError: malformed URI sequence"
      | _ => .error "URIError: malformed URI sequence"
    else if b < 0xF0 then
      match rest with
      | UriTok.byte b2 :: UriTok.byte b3 :: r3 =>
        let v := (b - 0xE0) * 0x1000 + (b2 - 0x80) * 0x40 + (b3 - 0x80)
        if 0x80 ≤ b2 ∧ b2 < 0xC0 ∧ 0x80 ≤ b3 ∧ b3 < 0xC0 ∧
            0x800 ≤ v ∧ ¬(0xD800 ≤ v ∧ v < 0xE000) then
          (uriUntokenize r3).map (Char.ofNat v :: ·)
        else .error "URIError: malformed URI sequence"
      | _ => .error "URIError: malformed URI sequence"
    else if b < 0xF5 then
      match rest with
      | UriTok.byte b2 :: UriTok.byte b3 :: UriTok.byte b4 :: r4 =>
        let v := (b - 0xF0) * 0x40000 + (b2 - 0x80) * 0x1000 +
          (b3 - 0x80) * 0x40 + (b4 - 0x80)
        if 0x80 ≤ b2 ∧ b2 < 0xC0 ∧ 0x80 ≤ b3 ∧ b3 < 0xC0 ∧
            0x80 ≤ b4 ∧ b4 < 0xC0 ∧ 0x10000 ≤ v ∧ v ≤ 0x10FFFF then
          (uriUntokenize r4).map (Char.ofNat v :: ·)
        else .error "URIError: malformed URI sequence"
      | _ => .error "URIError: malformed URI sequence"
    else .error "URIError: malformed URI sequence"

/-- Model of the ECMAScript builtin `decodeURIComponent`; `Except.error`
models a thrown `URIError`. -/
def decodeURIComponent (s : String) : Except String String :=
  (uriTokens s.data).bind (fun ts => (uriUntokenize ts).map (⟨·⟩))

/-- Model of `slug.replace("-", " ") (global)` on one character. -/
def dashToSpace (c : Char) : Char :=
  if c = '-' then ' ' else c

/-- Model of `slug.replace("-", " ") (global)`. -/
def replaceDashes (s : String) : String :=
  ⟨s.data.map dashToSpace⟩

/-- Canonical name pair of a directory record (`country.name`). -/
structure CountryName where
  common : String
  official : String
deriving DecidableEq, Repr

/-- Flag image references (`country.flags`). -/
structure CountryFlags where
  svg : String
  png : String
deriving DecidableEq, Repr

/-- A directory record as consumed by the application: the fields fetched by
the bulk REST Countries request
(`fields=name,flags,population,currencies,capital,languages,region,subregion,area,timezones`). -/
structure Country where
  name : CountryName
  flags : CountryFlags
  population : Nat
  currencies : List (String × String)
  capital : List String
  languages : List String
  region : String
  subregion : String
  area : Nat
  timezones : List String
deriving DecidableEq, Repr

/-- The `countriesSlice` store shape (its `initialState` fields). -/
structure CountriesState where
  countries : List Country
  selectedCountry : Option Country
  loading : Bool
  error : Option String
deriving DecidableEq, Repr

/-- The slice's `initialState`. -/
def initialState : CountriesState :=
  { countries := [], selectedCountry := none, loading := false, error := none }

/-- Actions the slice can receive: its two reducers plus the three
lifecycle actions of the `fetchCountries` thunk. -/
inductive CAction where
  | setSelectedCountry (payload : Country)
  | clearSelectedCountry
  | fetchPending
  | fetchFulfilled (payload : List Country)
  | fetchRejected (message : String)
deriving DecidableEq, Repr

/-- The reducer produced by `createSlice` in
`src/lib/features/countries/countriesSlice.js`: `setSelectedCountry` and
`clearSelectedCountry` update the selection and reset `error`; the
`extraReducers` builder registers a case only for
`fetchCountries.fulfilled`, so the thunk's `pending` and `rejected`
actions leave the state unchanged. -/
def countriesReducer (s : CountriesState) (a : CAction) : CountriesState :=
  match a with
  | CAction.setSelectedCountry payload =>
    { s with selectedCountry := some payload, error := none }
  | CAction.clearSelectedCountry =>
    { s with selectedCountry := none, error := none }
  | CAction.fetchFulfilled payload =>
    { s with countries := payload }
  | CAction.fetchPending => s
  | CAction.fetchRejected _ => s

/-- The matching predicate of the resolution `useEffect` (and of the
exported helper `selectCountryByName`): the record's common or official
name, lower-cased, equals the lower-cased candidate name. -/
def matchName (countryName : String) (c : Country) : Bool :=
  (jsToLower c.name.common == jsToLower countryName) ||
    (jsToLower c.name.official == jsToLower countryName)

/-- The exported helper `selectCountryByName` of the slice:
`state.countries.countries.find(...)` with the name predicate. -/
def selectCountryByName (countries : List Country) (countryName : String) :
    Option Country :=
  countries.find? (matchName countryName)

/-- Slug normalisation of the resolution effect:
`decodeURIComponent(slug.replace(...))`, dashes first, then
percent-decoding. -/
def normalizeSlug (slug : String) : Except String String :=
  decodeURIComponent (replaceDashes slug)

/-- The lookup resolver: the body of the resolution `useEffect`, viewed as
a function from the slug and the directory to the record it selects
(`Except.error` models the `URIError` that `decodeURIComponent` can
throw; `Except.ok none` means no record is selected, the not-found
outcome).  The effect body is guarded by `slug && countries.length > 0`,
so with an empty slug or an empty directory nothing runs and no record is
selected. -/
def resolve (slug : String) (directory : List Country) :
    Except String (Option Country) :=
  if slug ≠ "" ∧ directory ≠ [] then
    (normalizeSlug slug).map (fun n => directory.find? (matchName n))
  else Except.ok none

/-- Normalisation as worded by the specification (section 4.1): replace
the URL-path word-separator with a space, percent-decode, lower-case. -/
def specNormalize (slug : String) : Except String String :=
  (decodeURIComponent (replaceDashes slug)).map jsToLower

/-- A weather snapshot: the fields of the OpenWeatherMap response the page
consumes, together with the queried location it answers for. -/
structure Weather where
  location : String
  temp : Int
  feelsLike : Int
  humidity : Nat
  windSpeed : Nat
  condition : String
  icon : String
deriving DecidableEq, Repr

/-- Outcome of the network round trip inside `fetchWeatherData`: an HTTP
response with a status code and parsed body, or a rejected `fetch`
promise (transport error) carrying the platform error message. -/
inductive FetchOutcome where
  | response (status : Nat) (body : Weather)
  | transportError (message : String)
deriving DecidableEq, Repr

/-- The component-level weather state: the three `useState` hooks
`weatherData`, `weatherLoading`, `weatherError`. -/
structure WeatherUI where
  weatherData : Option Weather
  weatherLoading : Bool
  weatherError : Option String
deriving DecidableEq, Repr

/-- The initial weather state of a freshly mounted view (`Idle`). -/
def weatherIdle : WeatherUI :=
  { weatherData := none, weatherLoading := false, weatherError := none }

/-- One complete run of `fetchWeatherData(capital)` as a state
transformer: early return on a falsy capital; otherwise the loading flag
is raised and the error cleared, then the outcome is applied — an ok
response stores the body, a non-ok response throws
`Error("Weather data not available")` which the catch block stores, and a
transport error's own message is stored; the finally block lowers the
loading flag. -/
def fetchWeatherData (capital : String) (outcome : FetchOutcome)
    (s : WeatherUI) : WeatherUI :=
  if capital = "" then s
  else
    let s1 := { s with weatherLoading := true, weatherError := none }
    match outcome with
    | FetchOutcome.response status body =>
      if 200 ≤ status ∧ status ≤ 299 then
        { s1 with weatherData := some body, weatherLoading := false }
      else
        { s1 with weatherError := some "Weather data not available",
                  weatherLoading := false }
    | FetchOutcome.transportError message =>
      { s1 with weatherError := some message, weatherLoading := false }

/-- The whole view state: current route slug, Redux store, component
weather state, and the capitals of in-flight (uncancelled) weather
requests. -/
structure ViewState where
  slug : String
  store : CountriesState
  weather : WeatherUI
  inflight : List String
deriving DecidableEq, Repr

/-- State of a freshly loaded session at the country view. -/
def initState : ViewState :=
  { slug := "", store := initialState, weather := weatherIdle, inflight := [] }

/-- Dispatch a slice action to the store inside the view state. -/
def applyAction (s : ViewState) (a : CAction) : ViewState :=
  { s with store := countriesReducer s.store a }

/-- Cleanup function of the resolution `useEffect`: it dispatches
`clearSelectedCountry` (run before every re-run of the effect and on
unmount). -/
def effectCleanup (s : ViewState) : ViewState :=
  applyAction s CAction.clearSelectedCountry

/-- Body of the resolution `useEffect`: under the guard
`slug && countries.length > 0`, normalise the slug, `find` the record,
and dispatch `setSelectedCountry` on a hit or `clearSelectedCountry` on a
miss; outside the guard nothing is dispatched. -/
def runResolution (s : ViewState) : Except String ViewState :=
  if s.slug ≠ "" ∧ s.store.countries ≠ [] then
    (normalizeSlug s.slug).map (fun n =>
      match s.store.countries.find? (matchName n) with
      | some c => applyAction s (CAction.setSelectedCountry c)
      | none => applyAction s CAction.clearSelectedCountry)
  else Except.ok s

/-- The weather `useEffect`: if `selectedCountry?.capital?.[0]` is truthy
(a present, non-empty first capital), `fetchWeatherData` is invoked —
its synchronous prefix raises the loading flag, clears the error, and
leaves a request in flight; otherwise nothing happens. -/
def weatherEffectStep (s : ViewState) : ViewState :=
  match s.store.selectedCountry with
  | none => s
  | some c =>
    match c.capital.head? with
    | none => s
    | some cap =>
      if cap = "" then s
      else
        { s with
            weather := { s.weather with weatherLoading := true,
                                        weatherError := none },
            inflight := cap :: s.inflight }

/-- Completion of an in-flight weather request with an ok response: the
`try` continuation stores the snapshot and the finally block lowers the
loading flag (no staleness check — the result is applied whatever the
current selection is). -/
def fetchSuccessStep (s : ViewState) (cap : String) (w : Weather) :
    ViewState :=
  { s with
      weather := { s.weather with weatherData := some w,
                                  weatherLoading := false },
      inflight := s.inflight.erase cap }

/-- Completion of an in-flight weather request with a failure: the catch
block stores the error message and the finally block lowers the loading
flag; the snapshot and the store are untouched. -/
def fetchFailureStep (s : ViewState) (cap msg : String) : ViewState :=
  { s with
      weather := { s.weather with weatherError := some msg,
                                  weatherLoading := false },
      inflight := s.inflight.erase cap }

/-- Unmount of the view: the effect cleanup dispatches
`clearSelectedCountry`, and the component-level weather state is
destroyed with the component (in-flight completions no longer update
state). -/
def unmountStep (s : ViewState) : ViewState :=
  { applyAction s CAction.clearSelectedCountry with
      weather := weatherIdle, inflight := [] }

/-- Small-step transition relation of the view: navigation, the resolution
effect (cleanup and body), the weather effect, completions of in-flight
weather requests, the `fetchCountries` thunk lifecycle, and unmount. -/
inductive Step : ViewState → ViewState → Prop where
  | navigate (s : ViewState) (slug : String) :
      Step s { s with slug := slug }
  | cleanupEffect (s : ViewState) : Step s (effectCleanup s)
  | resolutionEffect (s s' : ViewState) (h : runResolution s = Except.ok s') :
      Step s s'
  | weatherEffect (s : ViewState) : Step s (weatherEffectStep s)
  | fetchSuccess (s : ViewState) (cap : String) (w : Weather)
      (hc : cap ∈ s.inflight) (hw : w.location = cap) :
      Step s (fetchSuccessStep s cap w)
  | fetchFailure (s : ViewState) (cap msg : String) (hc : cap ∈ s.inflight) :
      Step s (fetchFailureStep s cap msg)
  | fetchCountriesPending (s : ViewState) :
      Step s (applyAction s CAction.fetchPending)
  | fetchCountriesFulfilled (s : ViewState) (payload : List Country) :
      Step s (applyAction s (CAction.fetchFulfilled payload))
  | fetchCountriesRejected (s : ViewState) (msg : String) :
      Step s (applyAction s (CAction.fetchRejected msg))
  | unmount (s : ViewState) : Step s (unmountStep s)

/-- States reachable from a fresh session. -/
def Reachable (s : ViewState) : Prop :=
  Relation.ReflTransGen Step initState s

/-- Primary capital of the current selection, when present. -/
def primaryCapital (s : ViewState) : Option String :=
  s.store.selectedCountry.bind (fun c => c.capital.head?)

/-- Replacement of every maximal whitespace run by a single dash (the
regex replace in `handleCountryClick`), as a two-state scan: the flag
records whether the scan is inside a run whose dash is already
emitted. -/
def collapseWsAux : Bool → List Char → List Char
  | _, [] => []
  | inRun, c :: rest =>
    if isJsWs c then
      if inRun then collapseWsAux true rest
      else '-' :: collapseWsAux true rest
    else c :: collapseWsAux false rest

/-- Slug construction in `handleCountryClick`:
`countryName.toLowerCase().replace(/\s+/g, "-")` — lower-case, then each
maximal whitespace run becomes a single dash. -/
def handleCountrySlug (countryName : String) : String :=
  ⟨collapseWsAux false (jsToLower countryName).data⟩

/-- Whether no two adjacent characters are both JavaScript whitespace
(every whitespace run has length one). -/
def singleSpaced : List Char → Bool
  | c :: d :: rest => (!(isJsWs c && isJsWs d)) && singleSpaced (d :: rest)
  | _ => true

deriving instance DecidableEq for Except

/-- Template record with the non-name fields used by the concrete test
data below. -/
def baseRecord : Country :=
  { name := { common := "", official := "" },
    flags := { svg := "flag.svg", png := "flag.png" },
    population := 1000000,
    currencies := [("Euro", "E")],
    capital := [],
    languages := ["lang"],
    region := "Region", subregion := "Subregion",
    area := 1000, timezones := ["UTC"] }

/-- The France record of the specification's scenarios. -/
def france : Country :=
  { baseRecord with
      name := { common := "France", official := "French Republic" },
      capital := ["Paris"], population := 68000000 }

/-- A second record, navigated to after France in the staleness trace. -/
def germany : Country :=
  { baseRecord with
      name := { common := "Germany",
                official := "Federal Republic of Germany" },
      capital := ["Berlin"], population := 84000000 }

/-- The record of the specification's multi-word slug scenario. -/
def usa : Country :=
  { baseRecord with
      name := { common := "United States",
                official := "United States of America" },
      capital := ["Washington, D.C."], population := 331000000 }

/-- A record whose common name contains a dash, reachable only through a
percent-escaped slug. -/
def dashNamed : Country :=
  { baseRecord with name := { common := "A-B", official := "AB" } }

/-- A record whose common name contains a double space. -/
def doubleSpaced : Country :=
  { baseRecord with name := { common := "a  b", official := "x" } }

/-- A record whose common name is empty. -/
def emptyNamed : Country :=
  { baseRecord with name := { common := "", official := "y" } }

/-- The weather snapshot returned for Paris in the staleness trace. -/
def parisWeather : Weather :=
  { location := "Paris", temp := 18, feelsLike := 17, humidity := 60,
    windSpeed := 4, condition := "Clouds", icon := "04d" }

/-- Staleness trace, state 1: the user has navigated to the France page. -/
def cexS1 : ViewState := { initState with slug := "france" }

/-- Staleness trace, state 2: the bulk directory fetch has fulfilled. -/
def cexS2 : ViewState :=
  applyAction cexS1 (CAction.fetchFulfilled [france, germany])

/-- Staleness trace, state 3: the resolution effect has selected France. -/
def cexS3 : ViewState :=
  applyAction cexS2 (CAction.setSelectedCountry france)

/-- Staleness trace, state 4: the weather effect has started a fetch for
Paris. -/
def cexS4 : ViewState := weatherEffectStep cexS3

/-- Staleness trace, state 5: the Paris weather fetch has succeeded. -/
def cexS5 : ViewState := fetchSuccessStep cexS4 "Paris" parisWeather

/-- Staleness trace, state 6: the user has navigated to the Germany
page. -/
def cexS6 : ViewState := { cexS5 with slug := "germany" }

/-- Staleness trace, state 7: the resolution effect's cleanup has run. -/
def cexS7 : ViewState := effectCleanup cexS6

/-- Staleness trace, state 8: the resolution effect has selected Germany;
the Paris snapshot from the previous selection is still present. -/
def cexS8 : ViewState :=
  applyAction cexS7 (CAction.setSelectedCountry germany)

theorem charToNatOfNatLt (n : Nat) (h : n < 55296) : (Char.ofNat n).toNat = n := by
  unfold Char.ofNat
  rw [dif_pos (Or.inl h)]
  simp [Char.ofNatAux, Char.toNat, UInt32.toNat]

theorem charEqIffToNat (a b : Char) : a = b ↔ a.toNat = b.toNat := by
  constructor
  · intro h; rw [h]
  · intro h; exact Char.ext (UInt32.ext h)

theorem jsCharToLowerToNat (c : Char) :
    (jsCharToLower c).toNat =
      if 65 ≤ c.toNat ∧ c.toNat ≤ 90 then c.toNat + 32 else c.toNat := by
  unfold jsCharToLower
  by_cases h : 65 ≤ c.toNat ∧ c.toNat ≤ 90
  · rw [if_pos h, if_pos h, charToNatOfNatLt _ (by omega)]
  · rw [if_neg h, if_neg h]

theorem jsCharToLowerIdem (c : Char) :
    jsCharToLower (jsCharToLower c) = jsCharToLower c := by
  rw [charEqIffToNat, jsCharToLowerToNat (jsCharToLower c), jsCharToLowerToNat c]
  by_cases h : 65 ≤ c.toNat ∧ c.toNat ≤ 90
  · rw [if_pos h, if_neg (by omega)]
  · rw [if_neg h, if_neg h]

theorem jsCharToLowerNePercent (c : Char) (h : c ≠ '%') : jsCharToLower c ≠ '%' := by
  intro hc
  have h' : c.toNat ≠ '%'.toNat := fun hh => h ((charEqIffToNat c '%').mpr hh)
  have hc' : (jsCharToLower c).toNat = '%'.toNat := (charEqIffToNat _ _).mp hc
  rw [jsCharToLowerToNat] at hc'
  have h37 : '%'.toNat = 37 := rfl
  revert hc'
  split <;> omega

theorem jsCharToLowerNeDash (c : Char) (h : c ≠ '-') : jsCharToLower c ≠ '-' := by
  intro hc
  have h' : c.toNat ≠ '-'.toNat := fun hh => h ((charEqIffToNat c '-').mpr hh)
  have hc' : (jsCharToLower c).toNat = '-'.toNat := (charEqIffToNat _ _).mp hc
  rw [jsCharToLowerToNat] at hc'
  have h45 : '-'.toNat = 45 := rfl
  revert hc'
  split <;> omega

theorem isJsWsJsCharToLower (c : Char) : isJsWs (jsCharToLower c) = isJsWs c := by
  unfold isJsWs
  rw [jsCharToLowerToNat]
  split
  · simp only [jsWsCodes, List.mem_cons, List.not_mem_nil, or_false, decide_eq_decide]
    omega
  · rfl

/-- C9: for every state and payload, `setSelectedCountry` and
`clearSelectedCountry` reset the directory error field to null while
leaving the countries sequence and the loading flag unchanged (and update
only the selection). -/
theorem c9_selection_reducers_reset_error_and_frame
    (s : CountriesState) (payload : Country) :
    (countriesReducer s (CAction.setSelectedCountry payload)).error = none ∧
    (countriesReducer s CAction.clearSelectedCountry).error = none ∧
    (countriesReducer s (CAction.setSelectedCountry payload)).countries
      = s.countries ∧
    (countriesReducer s CAction.clearSelectedCountry).countries
      = s.countries ∧
    (countriesReducer s (CAction.setSelectedCountry payload)).loading
      = s.loading ∧
    (countriesReducer s CAction.clearSelectedCountry).loading = s.loading ∧
    (countriesReducer s (CAction.setSelectedCountry payload)).selectedCountry
      = some payload ∧
    (countriesReducer s CAction.clearSelectedCountry).selectedCountry
      = none :=
  ⟨rfl, rfl, rfl, rfl, rfl, rfl, rfl, rfl⟩

/-- C5: on unmount the effect cleanup dispatches `clearSelectedCountry`,
so the selection becomes none unconditionally, whatever the prior view
state; equally, the `clearSelectedCountry` reducer clears the selection
from every store state. -/
theorem c5_unmount_clears_selection_unconditionally :
    (∀ s : ViewState, (unmountStep s).store.selectedCountry = none) ∧
    (∀ st : CountriesState,
      (countriesReducer st CAction.clearSelectedCountry).selectedCountry
        = none) :=
  ⟨fun _ => rfl, fun _ => rfl⟩

/-- C3: the slice registers no handler for `fetchCountries.pending` or
`fetchCountries.rejected`, so dispatching them changes nothing: starting
the bulk fetch leaves the exposed pending flag false, and a failed fetch
never records an error message — contradicting the documented
loading/error contract. -/
theorem c3_pending_and_rejected_are_not_handled :
    (∀ st : CountriesState,
      countriesReducer st CAction.fetchPending = st) ∧
    (∀ st : CountriesState, ∀ m : String,
      countriesReducer st (CAction.fetchRejected m) = st) ∧
    (countriesReducer initialState CAction.fetchPending).loading = false ∧
    (countriesReducer (countriesReducer initialState CAction.fetchPending)
      (CAction.fetchRejected "Network Error")).error = none :=
  ⟨fun _ => rfl, fun _ _ => rfl, rfl, rfl⟩

/-- C7: completion of a failed weather fetch changes only the
component-level weather state: the Redux store — in particular a Found
selection — is untouched, while the weather error message is recorded. -/
theorem c7_weather_failure_never_clears_selection
    (s : ViewState) (r : Country) (cap msg : String)
    (h : s.store.selectedCountry = some r) :
    (fetchFailureStep s cap msg).store = s.store ∧
    (fetchFailureStep s cap msg).store.selectedCountry = some r ∧
    (fetchFailureStep s cap msg).weather.weatherError = some msg ∧
    (fetchFailureStep s cap msg).weather.weatherData = s.weather.weatherData :=
  ⟨rfl, h, rfl, rfl⟩

/-- Witness for C7 at a concrete Found state: a failing Paris fetch in the
state where France is selected leaves the store intact. -/
theorem c7_weather_failure_never_clears_selection_witness :
    (fetchFailureStep cexS3 "Paris" "Failed to fetch").store = cexS3.store ∧
    (fetchFailureStep cexS3 "Paris" "Failed to fetch").store.selectedCountry
      = some france ∧
    (fetchFailureStep cexS3 "Paris" "Failed to fetch").weather.weatherError
      = some "Failed to fetch" ∧
    (fetchFailureStep cexS3 "Paris" "Failed to fetch").weather.weatherData
      = cexS3.weather.weatherData :=
  c7_weather_failure_never_clears_selection cexS3 france "Paris"
    "Failed to fetch" rfl

/-- C8: when the selection is absent or its capital list is empty (or its
first capital is the empty string, falsy in the guard
`selectedCountry?.capital?.[0]`), the weather effect does nothing — no
fetch is initiated and the weather state is left exactly as it was; and
`fetchWeatherData` itself returns immediately on an empty capital. -/
theorem c8_no_fetch_when_capital_empty_or_not_found
    (s : ViewState) (o : FetchOutcome) (w : WeatherUI)
    (h : s.store.selectedCountry = none ∨
      ∃ c, s.store.selectedCountry = some c ∧
        (c.capital.head? = none ∨ c.capital.head? = some "")) :
    weatherEffectStep s = s ∧ fetchWeatherData "" o w = w := by
  constructor
  · unfold weatherEffectStep
    rcases h with h | ⟨c, hc, hcap⟩
    · rw [h]
    · rw [hc]
      rcases hcap with h2 | h2 <;> simp [h2]
  · rfl

/-- Witness for C8: in the freshly mounted state (no selection) the
weather effect is a no-op, and `fetchWeatherData` with an empty capital
leaves the idle state untouched. -/
theorem c8_no_fetch_when_capital_empty_or_not_found_witness :
    weatherEffectStep initState = initState ∧
    fetchWeatherData "" (FetchOutcome.transportError "Failed to fetch")
      weatherIdle = weatherIdle :=
  c8_no_fetch_when_capital_empty_or_not_found initState
    (FetchOutcome.transportError "Failed to fetch") weatherIdle
    (Or.inl rfl)

/-- C6 (amended): a non-success HTTP response makes `fetchWeatherData`
record the message "Weather data not available" with the loading flag
lowered; a transport error records that error's own message; in both
cases the stored snapshot is untouched and the invocation ends
terminally (its final state is that of the single completed attempt —
there is no retry). -/
theorem c6_failure_policy (cap : String) (s : WeatherUI) (status : Nat)
    (body : Weather) (msg : String) (hcap : cap ≠ "")
    (hstatus : ¬(200 ≤ status ∧ status ≤ 299)) :
    (fetchWeatherData cap (FetchOutcome.response status body) s).weatherError
      = some "Weather data not available" ∧
    (fetchWeatherData cap (FetchOutcome.response status body) s).weatherLoading
      = false ∧
    (fetchWeatherData cap (FetchOutcome.response status body) s).weatherData
      = s.weatherData ∧
    (fetchWeatherData cap (FetchOutcome.transportError msg) s).weatherError
      = some msg ∧
    (fetchWeatherData cap (FetchOutcome.transportError msg) s).weatherLoading
      = false ∧
    (fetchWeatherData cap (FetchOutcome.transportError msg) s).weatherData
      = s.weatherData := by
  simp [fetchWeatherData, hcap, hstatus]

/-- Witness for C6 at a concrete failing fetch for Paris (HTTP 404 and a
platform transport failure). -/
theorem c6_failure_policy_witness :
    (fetchWeatherData "Paris" (FetchOutcome.response 404 parisWeather)
      weatherIdle).weatherError = some "Weather data not available" ∧
    (fetchWeatherData "Paris" (FetchOutcome.response 404 parisWeather)
      weatherIdle).weatherLoading = false ∧
    (fetchWeatherData "Paris" (FetchOutcome.response 404 parisWeather)
      weatherIdle).weatherData = weatherIdle.weatherData ∧
    (fetchWeatherData "Paris" (FetchOutcome.transportError "Failed to fetch")
      weatherIdle).weatherError = some "Failed to fetch" ∧
    (fetchWeatherData "Paris" (FetchOutcome.transportError "Failed to fetch")
      weatherIdle).weatherLoading = false ∧
    (fetchWeatherData "Paris" (FetchOutcome.transportError "Failed to fetch")
      weatherIdle).weatherData = weatherIdle.weatherData :=
  c6_failure_policy "Paris" weatherIdle 404 parisWeather "Failed to fetch"
    (by decide) (by omega)

/-- Counterexample for C6 as stated: on a transport failure of the Paris
fetch the recorded message is the platform's own message (here the
browser's "Failed to fetch"), not "Weather data not available" — the
latter is produced only by the non-ok-response branch. -/
theorem c6_counterexample_transport_message :
    (fetchWeatherData "Paris" (FetchOutcome.transportError "Failed to fetch")
      weatherIdle).weatherError = some "Failed to fetch" ∧
    (fetchWeatherData "Paris" (FetchOutcome.transportError "Failed to fetch")
      weatherIdle).weatherError ≠ some "Weather data not available" := by
  exact ⟨rfl, by decide⟩

theorem findFirstOfSplit {α : Type} (p : α → Bool) (l1 l2 : List α) (a : α)
    (h1 : ∀ x ∈ l1, p x = false) (ha : p a = true) :
    (l1 ++ a :: l2).find? p = some a := by
  induction l1 with
  | nil => simp [List.find?, ha]
  | cons x xs ih =>
    have hx : p x = false := h1 x (by simp)
    rw [List.cons_append, List.find?_cons_of_neg _ (by simp [hx])]
    exact ih (fun y hy => h1 y (by simp [hy]))

/-- C1 (amended): for every slug whose percent-escapes decode (so
normalisation succeeds), resolution raises no exception, yields NotFound
on an empty directory or when no record's lower-cased common or official
name equals the normalised input, and otherwise yields the first matching
record of the directory. -/
theorem c1_resolver_first_match_or_not_found (S n : String)
    (D : List Country) (hn : normalizeSlug S = Except.ok n) (hS : S ≠ "") :
    (∃ r, resolve S D = Except.ok r) ∧
    (D = [] → resolve S D = Except.ok none) ∧
    ((∀ c ∈ D, matchName n c = false) → resolve S D = Except.ok none) ∧
    (∀ (l1 l2 : List Country) (r : Country), D = l1 ++ r :: l2 →
      (∀ c ∈ l1, matchName n c = false) → matchName n r = true →
      resolve S D = Except.ok (some r)) := by
  by_cases hD : D = []
  · subst hD
    have hnil : resolve S [] = Except.ok none := by
      unfold resolve
      rw [if_neg (by simp)]
    refine ⟨⟨none, hnil⟩, fun _ => hnil, fun _ => hnil, ?_⟩
    intro l1 l2 r habs h1 h2
    exact absurd habs (by simp)
  · have hres : resolve S D = Except.ok (D.find? (matchName n)) := by
      unfold resolve
      rw [if_pos ⟨hS, hD⟩, hn]
      rfl
    refine ⟨⟨D.find? (matchName n), hres⟩, fun h => absurd h hD, ?_, ?_⟩
    · intro hnone
      rw [hres, List.find?_eq_none.mpr (fun x hx => by simp [hnone x hx])]
    · intro l1 l2 r hsplit h1 h2
      rw [hres, hsplit, findFirstOfSplit (matchName n) l1 l2 r h1 h2]

/-- Witness for C1 at the specification's multi-word scenario: the slug
"united-states" normalises to "united states" and resolves to the first
(only) matching record. -/
theorem c1_resolver_first_match_or_not_found_witness :
    resolve "united-states" [usa] = Except.ok (some usa) :=
  (c1_resolver_first_match_or_not_found "united-states" "united states"
    [usa] rfl (by decide)).2.2.2 [] [] usa rfl (by simp) (by decide)

/-- Counterexample for C1 as stated: against a non-empty directory, the
slug "%" (a malformed percent-escape) makes `decodeURIComponent` throw a
`URIError`, so resolution raises an exception instead of returning
NotFound. -/
theorem c1_counterexample_malformed_slug_raises :
    resolve "%" [france] = Except.error "URIError: malformed URI sequence" ∧
    resolve "%" [france] ≠ Except.ok none :=
  ⟨rfl, by decide⟩

theorem runResolutionFrame (s t : ViewState)
    (h : runResolution s = Except.ok t) :
    t.weather = s.weather ∧ t.inflight = s.inflight ∧
    t.store.countries = s.store.countries := by
  unfold runResolution at h
  split at h
  · cases hn : normalizeSlug s.slug with
    | error e =>
      rw [hn] at h
      exact absurd h (by simp [Except.map])
    | ok n =>
      rw [hn] at h
      simp only [Except.map] at h
      cases h
      split <;> exact ⟨rfl, rfl, rfl⟩
  · cases h
    exact ⟨rfl, rfl, rfl⟩

theorem weatherEffectStepData (s : ViewState) :
    (weatherEffectStep s).weather.weatherData = s.weather.weatherData := by
  unfold weatherEffectStep
  split
  · rfl
  · split
    · rfl
    · split <;> rfl

/-- C2 (amended): along every step of the view, the weather snapshot is
either unchanged, destroyed (view teardown), or freshly created by the
successful completion of an in-flight fetch — in which case it answers
for that request's queried capital.  A snapshot is created only on fetch
success and destroyed on unmount; it is not discarded at the moment the
Selection changes, so until a later completion supersedes it the present
snapshot may answer for a previous Selection's capital. -/
theorem c2_snapshot_created_only_by_fetch_success (s t : ViewState)
    (hstep : Step s t) :
    t.weather.weatherData = s.weather.weatherData ∨
    t.weather.weatherData = none ∨
    (∃ w, t.weather.weatherData = some w ∧ w.location ∈ s.inflight) := by
  cases hstep with
  | navigate slug => exact Or.inl rfl
  | cleanupEffect => exact Or.inl rfl
  | resolutionEffect u h =>
    exact Or.inl (by rw [(runResolutionFrame s _ h).1])
  | weatherEffect => exact Or.inl (weatherEffectStepData s)
  | fetchSuccess cap w hc hw => exact Or.inr (Or.inr ⟨w, rfl, hw ▸ hc⟩)
  | fetchFailure cap msg hc => exact Or.inl rfl
  | fetchCountriesPending => exact Or.inl rfl
  | fetchCountriesFulfilled payload => exact Or.inl rfl
  | fetchCountriesRejected msg => exact Or.inl rfl
  | unmount => exact Or.inr (Or.inl rfl)

/-- Witness for the amended C2 theorem at the concrete successful Paris
fetch completion of the staleness trace. -/
theorem c2_snapshot_created_only_by_fetch_success_witness :
    cexS5.weather.weatherData = cexS4.weather.weatherData ∨
    cexS5.weather.weatherData = none ∨
    (∃ w, cexS5.weather.weatherData = some w ∧ w.location ∈ cexS4.inflight) :=
  c2_snapshot_created_only_by_fetch_success cexS4 cexS5
    (Step.fetchSuccess cexS4 "Paris" parisWeather (by decide) rfl)

/-- Counterexample for C2 as stated: the state reached after navigating
France → Germany (with the Paris fetch completing in between) is
reachable, Germany is the current Selection with primary capital
"Berlin", yet the present weather snapshot still answers for "Paris" —
the capital of the previous Selection.  The snapshot is not discarded at
the moment the Selection changes. -/
theorem c2_counterexample_stale_snapshot_after_navigation :
    Reachable cexS8 ∧
    cexS8.store.selectedCountry = some germany ∧
    primaryCapital cexS8 = some "Berlin" ∧
    cexS8.weather.weatherData = some parisWeather ∧
    parisWeather.location ≠ "Berlin" := by
  refine ⟨?_, by decide, by decide, by decide, by decide⟩
  have h01 : Step initState cexS1 := Step.navigate initState "france"
  have h12 : Step cexS1 cexS2 :=
    Step.fetchCountriesFulfilled cexS1 [france, germany]
  have h23 : Step cexS2 cexS3 := Step.resolutionEffect cexS2 cexS3 (by decide)
  have h34 : Step cexS3 cexS4 := Step.weatherEffect cexS3
  have h45 : Step cexS4 cexS5 :=
    Step.fetchSuccess cexS4 "Paris" parisWeather (by decide) rfl
  have h56 : Step cexS5 cexS6 := Step.navigate cexS5 "germany"
  have h67 : Step cexS6 cexS7 := Step.cleanupEffect cexS6
  have h78 : Step cexS7 cexS8 := Step.resolutionEffect cexS7 cexS8 (by decide)
  exact Relation.ReflTransGen.tail
    (Relation.ReflTransGen.tail
      (Relation.ReflTransGen.tail
        (Relation.ReflTransGen.tail
          (Relation.ReflTransGen.tail
            (Relation.ReflTransGen.tail
              (Relation.ReflTransGen.tail
                (Relation.ReflTransGen.single h01) h12) h23) h34) h45)
            h56) h67) h78

theorem stringEqIffData (a b : String) : a = b ↔ a.data = b.data := by
  constructor
  · intro h; rw [h]
  · intro h; cases a; cases b; exact congrArg String.mk h

theorem uriTokensNoPercent (l : List Char) (h : ∀ c ∈ l, c ≠ '%') :
    uriTokens l = Except.ok (l.map UriTok.raw) := by
  induction l with
  | nil => rfl
  | cons c rest ih =>
    have hc : c ≠ '%' := h c (by simp)
    have hstep : uriTokens (c :: rest) = (uriTokens rest).map (UriTok.raw c :: ·) := by
      rw [uriTokens.eq_def]
      split
      · rename_i heq
        exact absurd heq (by simp)
      · rename_i t1 t2
        injection t2 with hch hrest
        subst hch
        subst hrest
        rw [if_neg hc]
    rw [hstep, ih (fun x hx => h x (by simp [hx]))]
    rfl

theorem uriUntokenizeRaws (l : List Char) :
    uriUntokenize (l.map UriTok.raw) = Except.ok l := by
  induction l with
  | nil => rfl
  | cons c rest ih =>
    have hstep : uriUntokenize (UriTok.raw c :: rest.map UriTok.raw)
        = (uriUntokenize (rest.map UriTok.raw)).map (c :: ·) := rfl
    rw [List.map_cons, hstep, ih]
    rfl

theorem decodeNoPercent (s : String) (h : ∀ c ∈ s.data, c ≠ '%') :
    decodeURIComponent s = Except.ok s := by
  unfold decodeURIComponent
  rw [uriTokensNoPercent s.data h]
  show (uriUntokenize (s.data.map UriTok.raw)).map (⟨·⟩) = Except.ok s
  rw [uriUntokenizeRaws]
  rfl

theorem dashToSpaceNePercent (c : Char) (h : c ≠ '%') : dashToSpace c ≠ '%' := by
  unfold dashToSpace
  split
  · decide
  · exact h

theorem dashToSpaceNeDash (c : Char) : dashToSpace c ≠ '-' := by
  unfold dashToSpace
  split
  · decide
  · assumption

theorem mapEqSelfOfFix {α : Type} (f : α → α) (l : List α)
    (h : ∀ a ∈ l, f a = a) : l.map f = l := by
  induction l with
  | nil => rfl
  | cons a rest ih =>
    rw [List.map_cons, h a (by simp), ih (fun x hx => h x (by simp [hx]))]

theorem mapComposeIdem {α : Type} (f : α → α) (hf : ∀ a, f (f a) = f a)
    (l : List α) : (l.map f).map f = l.map f := by
  induction l with
  | nil => rfl
  | cons a rest ih => simp only [List.map_cons, hf, ih]

theorem jsToLowerIdem (s : String) : jsToLower (jsToLower s) = jsToLower s := by
  unfold jsToLower
  rw [stringEqIffData]
  exact mapComposeIdem jsCharToLower jsCharToLowerIdem s.data

theorem matchNameCongr (a b : String) (h : jsToLower a = jsToLower b) :
    matchName a = matchName b := by
  funext c
  unfold matchName
  rw [h]

theorem replaceDashesOfNoDash (s : String) (h : ∀ c ∈ s.data, c ≠ '-') :
    replaceDashes s = s := by
  unfold replaceDashes
  rw [stringEqIffData]
  exact mapEqSelfOfFix dashToSpace s.data
    (fun a ha => by unfold dashToSpace; rw [if_neg (h a ha)])

theorem normalizedSlugFixed (s : String) (hd : ∀ c ∈ s.data, c ≠ '-')
    (hp : ∀ c ∈ s.data, c ≠ '%') :
    normalizeSlug s = Except.ok s := by
  unfold normalizeSlug
  rw [replaceDashesOfNoDash s hd]
  exact decodeNoPercent s hp

/-- C4 (amended): for every slug S containing no percent character (so
that percent-decoding cannot reinterpret an escape), the specification's
normalisation succeeds and resolution is invariant under it:
`resolve(normalize(S), D) = resolve(S, D)` for every directory D. -/
theorem c4_resolution_invariant_under_normalization (S : String)
    (D : List Country) (h : ∀ c ∈ S.data, c ≠ '%') :
    specNormalize S = Except.ok (jsToLower (replaceDashes S)) ∧
    resolve (jsToLower (replaceDashes S)) D = resolve S D := by
  have hrdNoPct : ∀ c ∈ (replaceDashes S).data, c ≠ '%' := by
    intro c hc
    unfold replaceDashes at hc
    obtain ⟨x, hx, rfl⟩ := List.mem_map.mp hc
    exact dashToSpaceNePercent x (h x hx)
  have hrdNoDash : ∀ c ∈ (replaceDashes S).data, c ≠ '-' := by
    intro c hc
    unfold replaceDashes at hc
    obtain ⟨x, _, rfl⟩ := List.mem_map.mp hc
    exact dashToSpaceNeDash x
  have hdec : decodeURIComponent (replaceDashes S)
      = Except.ok (replaceDashes S) := decodeNoPercent _ hrdNoPct
  have hSslug : normalizeSlug S = Except.ok (replaceDashes S) := hdec
  refine ⟨by unfold specNormalize; rw [hdec]; rfl, ?_⟩
  have hNnoDash : ∀ c ∈ (jsToLower (replaceDashes S)).data, c ≠ '-' := by
    intro c hc
    unfold jsToLower at hc
    obtain ⟨x, hx, rfl⟩ := List.mem_map.mp hc
    exact jsCharToLowerNeDash x (hrdNoDash x hx)
  have hNnoPct : ∀ c ∈ (jsToLower (replaceDashes S)).data, c ≠ '%' := by
    intro c hc
    unfold jsToLower at hc
    obtain ⟨x, hx, rfl⟩ := List.mem_map.mp hc
    exact jsCharToLowerNePercent x (hrdNoPct x hx)
  have hNslug : normalizeSlug (jsToLower (replaceDashes S))
      = Except.ok (jsToLower (replaceDashes S)) :=
    normalizedSlugFixed _ hNnoDash hNnoPct
  have hmatch : matchName (jsToLower (replaceDashes S))
      = matchName (replaceDashes S) :=
    matchNameCongr _ _ (jsToLowerIdem (replaceDashes S))
  by_cases hS : S = ""
  · subst hS
    rfl
  · have hSdata : S.data ≠ [] := by
      intro hd
      exact hS ((stringEqIffData S "").mpr (hd.trans rfl))
    have hNne : jsToLower (replaceDashes S) ≠ "" := by
      intro hN
      have hd : (jsToLower (replaceDashes S)).data = [] :=
        ((stringEqIffData _ "").mp hN).trans rfl
      unfold jsToLower replaceDashes at hd
      simp at hd
      exact hSdata hd
    by_cases hD : D = []
    · subst hD
      have hnil : ∀ T : String, resolve T [] = Except.ok none := by
        intro T
        unfold resolve
        rw [if_neg (by simp)]
      rw [hnil, hnil]
    · have e1 : resolve S D
          = Except.ok (D.find? (matchName (replaceDashes S))) := by
        unfold resolve
        rw [if_pos ⟨hS, hD⟩, hSslug]
        rfl
      have e2 : resolve (jsToLower (replaceDashes S)) D
          = Except.ok (D.find? (matchName (jsToLower (replaceDashes S)))) := by
        unfold resolve
        rw [if_pos ⟨hNne, hD⟩, hNslug]
        rfl
      rw [e1, e2, hmatch]

/-- Witness for C4 at the slug "United-States" against the directory
containing the United States record. -/
theorem c4_resolution_invariant_under_normalization_witness :
    specNormalize "United-States"
      = Except.ok (jsToLower (replaceDashes "United-States")) ∧
    resolve (jsToLower (replaceDashes "United-States")) [usa]
      = resolve "United-States" [usa] :=
  c4_resolution_invariant_under_normalization "United-States" [usa]
    (by decide)

/-- Counterexample for C4 as stated: the slug "a%2db" percent-decodes to
"a-b", so it resolves to the record whose common name is "A-B"; but its
normalised form "a-b" re-enters normalisation, the dash is replaced by a
space, and nothing matches — resolution is not invariant under
normalisation when an escape decodes to a dash. -/
theorem c4_counterexample_percent_encoded_dash :
    specNormalize "a%2db" = Except.ok "a-b" ∧
    resolve "a%2db" [dashNamed] = Except.ok (some dashNamed) ∧
    resolve "a-b" [dashNamed] = Except.ok none :=
  ⟨rfl, rfl, rfl⟩

theorem mapMapEqSelf {α : Type} (f g : α → α) (l : List α)
    (h : ∀ a ∈ l, g (f a) = a) : (l.map f).map g = l := by
  induction l with
  | nil => rfl
  | cons a rest ih =>
    simp only [List.map_cons]
    rw [h a (by simp), ih (fun x hx => h x (by simp [hx]))]

theorem findSomeOfMem {α : Type} (p : α → Bool) (l : List α) (a : α)
    (ha : a ∈ l) (hp : p a = true) :
    ∃ b, l.find? p = some b ∧ p b = true := by
  induction l with
  | nil => cases ha
  | cons x xs ih =>
    by_cases hx : p x = true
    · exact ⟨x, by rw [List.find?_cons_of_pos _ hx], hx⟩
    · have hxf : ¬(p x = true) := hx
      rcases List.mem_cons.mp ha with rfl | hmem
      · exact absurd hp hx
      · obtain ⟨b, hb, hpb⟩ := ih hmem
        refine ⟨b, ?_, hpb⟩
        rw [List.find?_cons_of_neg _ hxf]
        exact hb

theorem singleSpacedTail (c : Char) (rest : List Char)
    (h : singleSpaced (c :: rest) = true) : singleSpaced rest = true := by
  cases rest with
  | nil => rfl
  | cons d r => exact ((Bool.and_eq_true _ _).mp h).2

theorem singleSpacedMapToLower (l : List Char) :
    singleSpaced (l.map jsCharToLower) = singleSpaced l := by
  induction l with
  | nil => rfl
  | cons c rest ih =>
    cases rest with
    | nil => rfl
    | cons d r =>
      have e1 : singleSpaced
          (jsCharToLower c :: jsCharToLower d :: r.map jsCharToLower)
          = (!(isJsWs (jsCharToLower c) && isJsWs (jsCharToLower d)) &&
              singleSpaced (jsCharToLower d :: r.map jsCharToLower)) := rfl
      have e2 : singleSpaced (c :: d :: r)
          = (!(isJsWs c && isJsWs d) && singleSpaced (d :: r)) := rfl
      rw [List.map_cons, List.map_cons, e1, e2,
        isJsWsJsCharToLower, isJsWsJsCharToLower]
      rw [List.map_cons] at ih
      rw [ih]

theorem collapseWsAuxFlagIrrelevant (l : List Char)
    (h : l = [] ∨ ∃ d r, l = d :: r ∧ isJsWs d = false) :
    collapseWsAux true l = collapseWsAux false l := by
  rcases h with rfl | ⟨d, r, rfl, hd⟩
  · rfl
  · simp [collapseWsAux, hd]

theorem collapseWsAuxSingleSpaced (l : List Char)
    (hws : ∀ c ∈ l, isJsWs c = true → c = ' ')
    (hss : singleSpaced l = true) :
    collapseWsAux false l = l.map (fun c => if c = ' ' then '-' else c) := by
  induction l with
  | nil => rfl
  | cons c rest ih =>
    have ihr := ih (fun x hx hwx => hws x (by simp [hx]) hwx)
      (singleSpacedTail c rest hss)
    by_cases hc : isJsWs c = true
    · have hcs : c = ' ' := hws c (by simp) hc
      subst hcs
      have hflag : collapseWsAux true rest = collapseWsAux false rest := by
        apply collapseWsAuxFlagIrrelevant
        cases rest with
        | nil => exact Or.inl rfl
        | cons d r =>
          refine Or.inr ⟨d, r, rfl, ?_⟩
          have h1 : (!(isJsWs ' ' && isJsWs d) && singleSpaced (d :: r))
              = true := hss
          have h2 := ((Bool.and_eq_true _ _).mp h1).1
          have hsp : isJsWs ' ' = true := rfl
          simp [hsp] at h2
          exact h2
      have hstep : collapseWsAux false (' ' :: rest)
          = '-' :: collapseWsAux true rest := rfl
      rw [hstep, hflag, ihr]
      simp
    · have hcns : c ≠ ' ' := by
        intro hcc
        subst hcc
        exact hc rfl
      have hstep : collapseWsAux false (c :: rest)
          = c :: collapseWsAux false rest := by
        simp [collapseWsAux, hc]
      rw [hstep, ihr]
      simp [hcns]

/-- C10 (amended): for every record R of the directory whose common name
is non-empty, contains no dash and no percent sign, and whose whitespace
consists of single spaces only (no run of two, no other whitespace
character), resolving the slug that `handleCountryClick` builds from R's
common name yields a record whose lower-cased common or official name
equals R's lower-cased common name. -/
theorem c10_slug_roundtrip (R : Country) (D : List Country) (hmem : R ∈ D)
    (hne : R.name.common ≠ "")
    (hchars : ∀ c ∈ R.name.common.data,
      c ≠ '-' ∧ c ≠ '%' ∧ (isJsWs c = true → c = ' '))
    (hss : singleSpaced R.name.common.data = true) :
    ∃ rr, resolve (handleCountrySlug R.name.common) D = Except.ok (some rr) ∧
      (jsToLower rr.name.common = jsToLower R.name.common ∨
        jsToLower rr.name.official = jsToLower R.name.common) := by
  have hLmem : ∀ c ∈ (jsToLower R.name.common).data,
      c ≠ '-' ∧ c ≠ '%' ∧ (isJsWs c = true → c = ' ') := by
    intro c hc
    unfold jsToLower at hc
    obtain ⟨x, hx, rfl⟩ := List.mem_map.mp hc
    obtain ⟨hx1, hx2, hx3⟩ := hchars x hx
    refine ⟨jsCharToLowerNeDash x hx1, jsCharToLowerNePercent x hx2, ?_⟩
    intro hw
    rw [isJsWsJsCharToLower] at hw
    rw [hx3 hw]
    rfl
  have hssL : singleSpaced (jsToLower R.name.common).data = true := by
    show singleSpaced (R.name.common.data.map jsCharToLower) = true
    rw [singleSpacedMapToLower]
    exact hss
  have hcollapse : collapseWsAux false (jsToLower R.name.common).data
      = (jsToLower R.name.common).data.map
          (fun c => if c = ' ' then '-' else c) :=
    collapseWsAuxSingleSpaced _ (fun c hc hw => (hLmem c hc).2.2 hw) hssL
  have hslug : handleCountrySlug R.name.common
      = ⟨(jsToLower R.name.common).data.map
          (fun c => if c = ' ' then '-' else c)⟩ := by
    unfold handleCountrySlug
    rw [stringEqIffData]
    exact hcollapse
  have hreplace : replaceDashes (handleCountrySlug R.name.common)
      = jsToLower R.name.common := by
    rw [hslug]
    unfold replaceDashes
    rw [stringEqIffData]
    show ((jsToLower R.name.common).data.map
        (fun c => if c = ' ' then '-' else c)).map dashToSpace
        = (jsToLower R.name.common).data
    apply mapMapEqSelf
    intro a ha
    obtain ⟨ha1, _, _⟩ := hLmem a ha
    by_cases hsp : a = ' '
    · subst hsp
      rfl
    · show dashToSpace (if a = ' ' then '-' else a) = a
      rw [if_neg hsp]
      unfold dashToSpace
      rw [if_neg ha1]
  have hnorm : normalizeSlug (handleCountrySlug R.name.common)
      = Except.ok (jsToLower R.name.common) := by
    unfold normalizeSlug
    rw [hreplace]
    exact decodeNoPercent _ (fun c hc => (hLmem c hc).2.1)
  have hdata : R.name.common.data ≠ [] := by
    intro hd
    exact hne ((stringEqIffData _ "").mpr (hd.trans rfl))
  have hslugne : handleCountrySlug R.name.common ≠ "" := by
    rw [hslug]
    intro hs
    have hthis : (R.name.common.data.map jsCharToLower).map
        (fun c => if c = ' ' then '-' else c) = [] :=
      ((stringEqIffData _ "").mp hs).trans rfl
    simp at hthis
    exact hdata hthis
  have hDne : D ≠ [] := List.ne_nil_of_mem hmem
  have hres : resolve (handleCountrySlug R.name.common) D
      = Except.ok (D.find? (matchName (jsToLower R.name.common))) := by
    unfold resolve
    rw [if_pos ⟨hslugne, hDne⟩, hnorm]
    rfl
  have hmatchR : matchName (jsToLower R.name.common) R = true := by
    unfold matchName
    rw [jsToLowerIdem]
    simp
  obtain ⟨rr, hfind, hprr⟩ :=
    findSomeOfMem (matchName (jsToLower R.name.common)) D R hmem hmatchR
  refine ⟨rr, by rw [hres, hfind], ?_⟩
  unfold matchName at hprr
  rw [jsToLowerIdem] at hprr
  rcases (Bool.or_eq_true _ _).mp hprr with hcase | hcase
  · exact Or.inl (by simpa using hcase)
  · exact Or.inr (by simpa using hcase)

/-- Witness for C10 at the record "United States" (a single interior
space) in a singleton directory. -/
theorem c10_slug_roundtrip_witness :
    ∃ rr, resolve (handleCountrySlug usa.name.common) [usa]
        = Except.ok (some rr) ∧
      (jsToLower rr.name.common = jsToLower usa.name.common ∨
        jsToLower rr.name.official = jsToLower usa.name.common) :=
  c10_slug_roundtrip usa [usa] (by simp) (by decide) (by decide) (by decide)

/-- Counterexample for C10 as stated: the record whose common name is
"a  b" (two spaces, no hyphen, no percent sign) gets the slug "a-b",
whose resolution collapses the run to a single space and matches
nothing; likewise a record with an empty common name gets the empty
slug, which the effect guard never resolves.  In both cases resolution
returns NotFound rather than a record with a matching name. -/
theorem c10_counterexample_whitespace_run :
    handleCountrySlug "a  b" = "a-b" ∧
    resolve (handleCountrySlug "a  b") [doubleSpaced] = Except.ok none ∧
    handleCountrySlug "" = "" ∧
    resolve (handleCountrySlug "") [emptyNamed] = Except.ok none :=
  ⟨rfl, rfl, rfl, rfl⟩
